import Mathlib

/-!
Verification of the `OneTaskInverseKinematics` controller
(`kuka_controllers/src/one_task_inverse_kinematics.cpp`).

The controller's per-cycle arithmetic is embedded over the exact rationals.
External library primitives (the KDL Jacobian solver, the forward-kinematics
solver and the pseudo-inverse helper) are opaque to the controller, so they
are modelled as abstract functions carried in a `Solvers` record; the PID
objects come from `control_toolbox::Pid`, whose gain record, `initPid`,
`setGains` and `computeCommand` operations are rendered directly.
-/

namespace KukaLWR

/-- KDL::Vector: a 3-component real vector (exact rationals here). -/
abbrev Vec3 := Fin 3 → ℚ

/-- KDL::Rotation: a 3x3 rotation matrix, stored entrywise. -/
abbrev Rot := Fin 3 → Fin 3 → ℚ

/-- KDL::Rotation::Identity(). -/
def Rot.identity : Rot := fun a b => if a = b then 1 else 0

/-- KDL::Frame: position `p` plus orientation `M`. -/
structure Frame where
  p : Vec3
  M : Rot
deriving DecidableEq

/-- KDL::Frame(const Vector and V): position from the vector, rotation
defaulting to the identity (the constructor used by
`command_configuration`). -/
def Frame.fromVector (v : Vec3) : Frame := ⟨v, Rot.identity⟩

/-- KDL::Twist: 3 linear (`vel`) plus 3 angular (`rot`) components. -/
structure Twist where
  vel : Vec3
  rot : Vec3
deriving DecidableEq

/-- KDL::Twist::operator()(k): components 0..2 are `vel`, 3..5 are `rot`. -/
def Twist.get (t : Twist) (k : Fin 6) : ℚ :=
  if h : (k : ℕ) < 3 then t.vel ⟨k, h⟩
  else t.rot ⟨(k : ℕ) - 3, by have := k.isLt; omega⟩

/-- KDL::JntArrayAcc as used here: joint position and velocity vectors
(the fields `q` and `qdot` read and written by the controller). -/
structure JntState (n : ℕ) where
  q : Fin n → ℚ
  qdot : Fin n → ℚ
deriving DecidableEq

/-- The gain record of control_toolbox::Pid: proportional, integral,
derivative gains and the two anti-windup bounds. -/
structure PidGains where
  p : ℚ
  i : ℚ
  d : ℚ
  i_max : ℚ
  i_min : ℚ
deriving DecidableEq

/-- control_toolbox::Pid: gains plus the internal error state that persists
across `computeCommand` calls. -/
structure Pid where
  gains : PidGains
  p_error_last : ℚ
  i_error : ℚ
  d_error : ℚ
deriving DecidableEq

/-- Pid::initPid(p,i,d,i_max,i_min): sets the gains and resets the internal
error state to zero. -/
def Pid.initPid (p i d i_max i_min : ℚ) : Pid :=
  ⟨⟨p, i, d, i_max, i_min⟩, 0, 0, 0⟩

/-- Pid::setGains(p,i,d,i_max,i_min): replaces the gains, leaving the
internal error state untouched. -/
def Pid.setGains (pid : Pid) (p i d i_max i_min : ℚ) : Pid :=
  { pid with gains := ⟨p, i, d, i_max, i_min⟩ }

/-- Pid::computeCommand(error, dt): proportional term plus clamped integral
term plus derivative term, returning the command together with the updated
internal state. A zero dt returns 0 and leaves the state unchanged. -/
def Pid.computeCommand (pid : Pid) (error dt : ℚ) : ℚ × Pid :=
  if dt = 0 then (0, pid)
  else
    let error_dot := if 0 < dt then (error - pid.p_error_last) / dt else pid.d_error
    let p_error_last := if 0 < dt then error else pid.p_error_last
    let i_error := pid.i_error + dt * error
    let p_term := pid.gains.p * error
    let i_term := max pid.gains.i_min (min (pid.gains.i * i_error) pid.gains.i_max)
    let d_term := pid.gains.d * error_dot
    (p_term + i_term + d_term,
      { pid with p_error_last := p_error_last, i_error := i_error, d_error := error_dot })

/-- KDL::Jacobian with n columns: a 6 x n matrix. -/
abbrev Jac (n : ℕ) := Fin 6 → Fin n → ℚ

/-- The pseudo-inverse of a 6 x n Jacobian: an n x 6 matrix. -/
abbrev Pinv (n : ℕ) := Fin n → Fin 6 → ℚ

/-- The external solver objects constructed at `init` and used by `update`:
the Jacobian solver (`ChainJntToJacSolver::JntToJac`), the forward
kinematics solver (`ChainFkSolverPos_recursive::JntToCart`) and the
pseudo-inverse helper (`pseudo_inverse`). -/
structure Solvers (n : ℕ) where
  jntToJac : (Fin n → ℚ) → Jac n
  jntToCart : (Fin n → ℚ) → Frame
  pinv : Jac n → Pinv n

/-- The mutable per-joint and Cartesian fields of
`OneTaskInverseKinematics`, after an `init` that sized everything to n. -/
structure CtrlState (n : ℕ) where
  joint_msr_states : JntState n
  joint_des_states : JntState n
  x_des : Frame
  x : Frame
  x_err : Twist
  J : Jac n
  J_pinv : Pinv n
  tau_cmd : Fin n → ℚ
  PIDs : Fin n → Pid
deriving DecidableEq

variable {n : ℕ}

/-- OneTaskInverseKinematics::starting: read the joint handles into the
measured state, seed the desired position from the measured position,
reinitialize every PID with gains (100, 1, 0, 0, 0), compute forward
kinematics of the measured position into `x`, and set `x_des` to `x`.
`q_read` and `qdot_read` are the values the joint handles return. -/
def starting (S : Solvers n) (q_read qdot_read : Fin n → ℚ)
    (s : CtrlState n) : CtrlState n :=
  let msr : JntState n := ⟨q_read, qdot_read⟩
  let des : JntState n := ⟨q_read, s.joint_des_states.qdot⟩
  let pids : Fin n → Pid := fun _ => Pid.initPid 100 1 0 0 0
  let x := S.jntToCart q_read
  { s with
    joint_msr_states := msr
    joint_des_states := des
    PIDs := pids
    x := x
    x_des := x }

/-- OneTaskInverseKinematics::update: refresh the measured state from the
handles, recompute the Jacobian, its pseudo-inverse and the forward
kinematics, form the pose error (linear part target minus measured, angular
part zeroed), set the desired velocity to pseudo-inverse times error,
advance the desired position by forward Euler over `period`, and run each
PID on (desired minus measured) position to produce the torque commands. -/
def update (S : Solvers n) (period : ℚ) (q_read qdot_read : Fin n → ℚ)
    (s : CtrlState n) : CtrlState n :=
  let msr : JntState n := ⟨q_read, qdot_read⟩
  let J := S.jntToJac q_read
  let J_pinv := S.pinv J
  let x := S.jntToCart q_read
  let x_err : Twist := ⟨fun j => s.x_des.p j - x.p j, fun _ => 0⟩
  let qdot : Fin n → ℚ := fun i => ∑ k : Fin 6, J_pinv i k * x_err.get k
  let q : Fin n → ℚ := fun i => s.joint_des_states.q i + period * qdot i
  let pidStep : Fin n → ℚ × Pid :=
    fun i => (s.PIDs i).computeCommand (q i - msr.q i) period
  { joint_msr_states := msr
    joint_des_states := ⟨q, qdot⟩
    x_des := s.x_des
    x := x
    x_err := x_err
    J := J
    J_pinv := J_pinv
    tau_cmd := fun i => (pidStep i).1
    PIDs := fun i => (pidStep i).2 }

/-- OneTaskInverseKinematics::command_configuration: build a frame from the
message's position only (KDL's from-vector constructor, whose rotation is
the identity) and assign it to `x_des`. -/
def command_configuration (px py pz : ℚ) (s : CtrlState n) : CtrlState n :=
  let frame_des : Frame := Frame.fromVector ![px, py, pz]
  { s with x_des := frame_des }

/-- OneTaskInverseKinematics::set_gains: when the message carries exactly
2n values, joint i receives proportional gain data[i], integral gain
data[i + n], derivative gain 0 and zero windup bounds; otherwise nothing
is modified. -/
def set_gains (data : List ℚ) (s : CtrlState n) : CtrlState n :=
  if data.length = 2 * n then
    { s with PIDs := fun i =>
        (s.PIDs i).setGains (data.getD i 0) (data.getD ((i : ℕ) + n) 0) 0 0 0 }
  else s

/-! Initialization model. `init` runs before any sizing exists, so it is
modelled separately over a resource record with explicit sizes. The
parameter store, the URDF parser, the tree builder and the chain extractor
are external inputs collected in `InitEnv`. -/

/-- One segment of a KDL chain: the name of its joint and whether that
joint is movable (KDL counts a joint in `getNrOfJoints` exactly when its
type is not None). -/
structure Segment where
  jointName : String
  movable : Bool
deriving DecidableEq

/-- A KDL chain as the controller consumes it: its ordered segment list. -/
abbrev Chain := List Segment

/-- KDL::Chain::getNrOfJoints: the number of movable joints. -/
def Chain.nrOfJoints (c : Chain) : ℕ :=
  (c.filter fun sg => sg.movable).length

/-- The external inputs `init` consults: the result of the upward parameter
search for `robot_description`, the `root_name` and `tip_name` parameters,
the parameter-store lookup for the robot description content, the URDF
parse and tree construction outcomes, and the chain extraction. -/
structure InitEnv where
  searchParam : Option String
  root_name : Option String
  tip_name : Option String
  param : String → Option String
  parseUrdf : String → Bool
  treeFromUrdf : String → Bool
  getChain : String → String → Option Chain

/-- The resources `init` creates: joint handle names, constructed solver
objects, the sizes given to the per-joint structures by `resize`, and the
topic subscriptions. -/
structure CtrlResources where
  joint_handles : List String
  solvers : List String
  msr_size : ℕ
  des_size : ℕ
  tau_size : ℕ
  jac_size : ℕ
  pids_size : ℕ
  subs : List String
deriving DecidableEq

/-- OneTaskInverseKinematics::init: the sequence of configuration checks,
each returning failure without touching the resources; on success, joint
handles are acquired for every chain segment after the first, the five
solver objects are constructed, every per-joint structure is resized to
the chain's movable-joint count, and the two subscriptions are made. -/
def init (env : InitEnv) (r : CtrlResources) : Bool × CtrlResources :=
  match env.searchParam with
  | none => (false, r)
  | some robot_description =>
    match env.root_name with
    | none => (false, r)
    | some root_name =>
      match env.tip_name with
      | none => (false, r)
      | some tip_name =>
        match env.param robot_description with
        | none => (false, r)
        | some xml_string =>
          if xml_string.length = 0 then (false, r)
          else if ¬ env.parseUrdf xml_string then (false, r)
          else if ¬ env.treeFromUrdf xml_string then (false, r)
          else
            match env.getChain root_name tip_name with
            | none => (false, r)
            | some kdl_chain =>
              let nj := Chain.nrOfJoints kdl_chain
              (true,
                { joint_handles :=
                    r.joint_handles ++ (kdl_chain.drop 1).map (fun sg => sg.jointName)
                  solvers :=
                    ["jnt_to_jac_solver", "id_solver", "fk_pos_solver",
                     "ik_vel_solver", "ik_pos_solver"]
                  msr_size := nj
                  des_size := nj
                  tau_size := nj
                  jac_size := nj
                  pids_size := nj
                  subs := ["command_configuration", "set_gains"] })

/-- Forget the stored measured joint velocity: the observational
equivalence used to state that `update` never reads it. -/
def scrubQdot (s : CtrlState n) : CtrlState n :=
  { s with joint_msr_states := { s.joint_msr_states with qdot := fun _ => 0 } }

/-! Concrete instances used by witnesses and counterexamples. -/

/-- A rotation by a quarter turn about the third axis: a concrete
non-identity orientation. -/
def rotZ90 : Rot := ![![0, -1, 0], ![1, 0, 0], ![0, 0, 1]]

/-- A concrete frame at the origin carrying the non-identity orientation
`rotZ90`. -/
def frameRot : Frame := ⟨![0, 0, 0], rotZ90⟩

/-- The zero twist. -/
def twist0 : Twist := ⟨![0, 0, 0], ![0, 0, 0]⟩

/-- A concrete single-joint controller state whose target pose sits at the
origin with the non-identity orientation `rotZ90`. -/
def sRot : CtrlState 1 :=
  ⟨⟨fun _ => 0, fun _ => 0⟩, ⟨fun _ => 0, fun _ => 0⟩, frameRot, frameRot,
   twist0, fun _ _ => 0, fun _ _ => 0, fun _ => 0, fun _ => Pid.initPid 100 1 0 0 0⟩

/-- A concrete single-joint solver set: unit Jacobian and pseudo-inverse
entries, forward kinematics placing the end effector at (q 0, 0, 0). -/
def S1 : Solvers 1 :=
  ⟨fun _ => fun _ _ => 1,
   fun q => ⟨![q 0, 0, 0], Rot.identity⟩,
   fun _ => fun _ _ => 1⟩

/-- An empty resource record: the controller's state before `init`. -/
def rEmpty : CtrlResources := ⟨[], [], 0, 0, 0, 0, 0, []⟩

/-- An environment in which the upward search for `robot_description`
fails. -/
def envMissing : InitEnv :=
  ⟨none, none, none, fun _ => none, fun _ => false, fun _ => false,
   fun _ _ => none⟩

/-- A two-segment chain: a fixed virtual root segment followed by one
movable joint. -/
def chainEx : Chain := [⟨"base_joint", false⟩, ⟨"joint_a1", true⟩]

/-- An environment in which every configuration step succeeds and chain
extraction yields `chainEx`. -/
def envOk : InitEnv :=
  ⟨some "robot_description", some "root", some "tip",
   fun _ => some "<robot/>", fun _ => true, fun _ => true,
   fun _ _ => some chainEx⟩

/-! Theorems settling the claims. -/

/-- C1: in every `update` call, the desired joint velocity is the product
of the Jacobian pseudo-inverse with the 6-component pose error (for each
joint i, qdot i is the sum over the six error components k of
J_pinv i k times x_err k), and the desired position is advanced by forward
Euler: q i becomes the previous q i plus period times qdot i. -/
theorem update_qdot_is_pinv_times_err_and_euler (S : Solvers n) (period : ℚ)
    (q_read qdot_read : Fin n → ℚ) (s : CtrlState n) (i : Fin n) :
    (update S period q_read qdot_read s).joint_des_states.qdot i
      = ∑ k : Fin 6,
          (update S period q_read qdot_read s).J_pinv i k *
            (update S period q_read qdot_read s).x_err.get k
    ∧ (update S period q_read qdot_read s).joint_des_states.q i
      = s.joint_des_states.q i +
          period * (update S period q_read qdot_read s).joint_des_states.qdot i :=
  ⟨rfl, rfl⟩

/-- C2: after `starting`, for arbitrary measured joint positions, the
desired joint position equals the measured joint position component-wise,
and the Cartesian target pose equals the forward-kinematics image of the
measured position — whatever target was stored before is discarded. -/
theorem starting_resets_target (S : Solvers n) (q_read qdot_read : Fin n → ℚ)
    (s : CtrlState n) :
    (∀ i, (starting S q_read qdot_read s).joint_des_states.q i
        = (starting S q_read qdot_read s).joint_msr_states.q i)
    ∧ (starting S q_read qdot_read s).x_des = S.jntToCart q_read :=
  ⟨fun _ => rfl, rfl⟩

/-- C7: after every `update` call, all three components of the angular
part of the Cartesian pose error are exactly zero, whatever the target
and measured orientations are. -/
theorem update_zero_rot_err (S : Solvers n) (period : ℚ)
    (q_read qdot_read : Fin n → ℚ) (s : CtrlState n) :
    ∀ j : Fin 3, (update S period q_read qdot_read s).x_err.rot j = 0 :=
  fun _ => rfl

/-- The updated PID returned by computeCommand carries the same gains as
the input PID. -/
theorem Pid.computeCommand_gains (pid : Pid) (error dt : ℚ) :
    (pid.computeCommand error dt).2.gains = pid.gains := by
  unfold Pid.computeCommand
  split <;> rfl

/-- C10: `update` leaves the Cartesian target pose unchanged, and every
PID's gain record unchanged (only the PIDs' internal error state and the
other cycle-recomputed fields move). -/
theorem update_preserves_target_and_gains (S : Solvers n) (period : ℚ)
    (q_read qdot_read : Fin n → ℚ) (s : CtrlState n) :
    (update S period q_read qdot_read s).x_des = s.x_des
    ∧ ∀ i, ((update S period q_read qdot_read s).PIDs i).gains = (s.PIDs i).gains :=
  ⟨rfl, fun i => Pid.computeCommand_gains (s.PIDs i) _ _⟩

/-- C3 counterexample: `command_configuration` does not leave the target
pose's orientation unchanged — starting from a target whose orientation is
`rotZ90`, one message changes the stored orientation. -/
theorem command_configuration_orientation_changes :
    ¬ ((command_configuration 1 2 3 sRot).x_des.M = sRot.x_des.M) := by
  decide

/-- C3 amended: `command_configuration` assigns a whole fresh frame: the
target position becomes the message's position and the target orientation
is reset to the identity rotation (any previously stored orientation is
discarded); no other controller field is modified. -/
theorem command_configuration_sets_position_resets_orientation
    (px py pz : ℚ) (s : CtrlState n) :
    (command_configuration px py pz s).x_des.p = ![px, py, pz]
    ∧ (command_configuration px py pz s).x_des.M = Rot.identity
    ∧ (command_configuration px py pz s).joint_msr_states = s.joint_msr_states
    ∧ (command_configuration px py pz s).joint_des_states = s.joint_des_states
    ∧ (command_configuration px py pz s).PIDs = s.PIDs
    ∧ (command_configuration px py pz s).tau_cmd = s.tau_cmd :=
  ⟨rfl, rfl, rfl, rfl, rfl, rfl⟩

/-- C4: the gains message is all-or-nothing — with exactly 2n values,
PID i receives proportional gain data[i], integral gain data[i + n],
derivative gain 0 and zero windup bounds; with any other length the whole
controller state is left untouched. -/
theorem set_gains_all_or_nothing (data : List ℚ) (s : CtrlState n) :
    (data.length = 2 * n →
      ∀ i : Fin n, ((set_gains data s).PIDs i).gains
        = ⟨data.getD i 0, data.getD ((i : ℕ) + n) 0, 0, 0, 0⟩)
    ∧ (data.length ≠ 2 * n → set_gains data s = s) := by
  constructor
  · intro h i
    simp [set_gains, h, Pid.setGains]
  · intro h
    simp [set_gains, h]

/-- Witness for C4: a two-element message on the one-joint state sets the
proportional gain to 10 and the integral gain to 1. -/
theorem set_gains_all_or_nothing_witness :
    ((set_gains [(10 : ℚ), 1] sRot).PIDs 0).gains = ⟨10, 1, 0, 0, 0⟩ := by
  have h := (set_gains_all_or_nothing [(10 : ℚ), 1] sRot).1 rfl 0
  simpa using h

/-- C8: if the target position equals the measured Cartesian position
computed by this cycle's forward kinematics, the desired joint velocity is
the zero vector and the Euler step leaves the desired position unchanged. -/
theorem update_zero_error_steady (S : Solvers n) (period : ℚ)
    (q_read qdot_read : Fin n → ℚ) (s : CtrlState n)
    (h : s.x_des.p = (S.jntToCart q_read).p) :
    (update S period q_read qdot_read s).joint_des_states.qdot = (fun _ => 0)
    ∧ (update S period q_read qdot_read s).joint_des_states.q
      = s.joint_des_states.q := by
  have hget : ∀ k : Fin 6,
      Twist.get ⟨fun j => s.x_des.p j - (S.jntToCart q_read).p j, fun _ => 0⟩ k
        = 0 := by
    intro k
    unfold Twist.get
    split
    · simp [h]
    · rfl
  have hqd : (update S period q_read qdot_read s).joint_des_states.qdot
      = (fun _ => 0) := by
    funext i
    show (∑ k : Fin 6, (S.pinv (S.jntToJac q_read)) i k *
        Twist.get ⟨fun j => s.x_des.p j - (S.jntToCart q_read).p j, fun _ => 0⟩ k)
      = 0
    simp [hget]
  refine ⟨hqd, ?_⟩
  funext i
  show s.joint_des_states.q i +
      period * (update S period q_read qdot_read s).joint_des_states.qdot i
    = s.joint_des_states.q i
  rw [congrFun hqd i]
  simp

/-- Witness for C8: the one-joint state at the origin with target at the
origin keeps a zero desired velocity and an unchanged desired position. -/
theorem update_zero_error_steady_witness :
    (update S1 1 (fun _ => 0) (fun _ => 0) sRot).joint_des_states.qdot
      = (fun _ => 0)
    ∧ (update S1 1 (fun _ => 0) (fun _ => 0) sRot).joint_des_states.q
      = sRot.joint_des_states.q :=
  update_zero_error_steady S1 1 (fun _ => 0) (fun _ => 0) sRot rfl

/-- C9: `update` never reads the measured joint velocity — two runs from
states agreeing everywhere except that field, fed the same measured
positions but arbitrary measured velocities, write the same torque
commands and end in the same state apart from the stored measured
velocity itself. -/
theorem update_ignores_msr_velocity (S : Solvers n) (period : ℚ)
    (q_read qd1 qd2 : Fin n → ℚ) (s1 s2 : CtrlState n)
    (h : scrubQdot s1 = scrubQdot s2) :
    (update S period q_read qd1 s1).tau_cmd
      = (update S period q_read qd2 s2).tau_cmd
    ∧ scrubQdot (update S period q_read qd1 s1)
      = scrubQdot (update S period q_read qd2 s2) := by
  obtain ⟨⟨mq1, mqd1⟩, d1, xd1, x1, xe1, J1, Jp1, t1, P1⟩ := s1
  obtain ⟨⟨mq2, mqd2⟩, d2, xd2, x2, xe2, J2, Jp2, t2, P2⟩ := s2
  simp only [scrubQdot, CtrlState.mk.injEq, JntState.mk.injEq] at h
  obtain ⟨⟨hmq, -⟩, hd, hxd, hx, hxe, hJ, hJp, ht, hP⟩ := h
  subst hmq hd hxd hx hxe hJ hJp ht hP
  exact ⟨rfl, rfl⟩

/-- Witness for C9: on the one-joint state, measured velocities 0 and 1
yield the same torque command and the same scrubbed post-state. -/
theorem update_ignores_msr_velocity_witness :
    (update S1 1 (fun _ => 0) (fun _ => 0) sRot).tau_cmd
      = (update S1 1 (fun _ => 0) (fun _ => 1) sRot).tau_cmd
    ∧ scrubQdot (update S1 1 (fun _ => 0) (fun _ => 0) sRot)
      = scrubQdot (update S1 1 (fun _ => 0) (fun _ => 1) sRot) :=
  update_ignores_msr_velocity S1 1 (fun _ => 0) (fun _ => 0) (fun _ => 1)
    sRot sRot rfl

/-- Every run of `init` either leaves the resource record untouched or
reports success. -/
theorem init_frame_or_success (env : InitEnv) (r : CtrlResources) :
    (init env r).2 = r ∨ (init env r).1 = true := by
  unfold init
  repeat' split
  all_goals simp

/-- C5: initialization fails closed — whenever `init` reports failure the
resource record is exactly the input one (no handles, solvers or
subscriptions created), and each listed configuration failure (missing
robot-description search result, missing root_name, missing tip_name,
unset description parameter, empty document, unparsable document, no
chain between root and tip) makes `init` report failure with the
resources untouched. -/
theorem init_fails_closed (env : InitEnv) (r : CtrlResources) :
    ((init env r).1 = false → (init env r).2 = r)
    ∧ (env.searchParam = none → init env r = (false, r))
    ∧ (env.root_name = none → init env r = (false, r))
    ∧ (env.tip_name = none → init env r = (false, r))
    ∧ (∀ rd, env.searchParam = some rd → env.param rd = none →
        init env r = (false, r))
    ∧ (∀ rd xml, env.searchParam = some rd → env.param rd = some xml →
        xml.length = 0 → init env r = (false, r))
    ∧ (∀ rd xml, env.searchParam = some rd → env.param rd = some xml →
        env.parseUrdf xml = false → init env r = (false, r))
    ∧ (∀ root tip, env.root_name = some root → env.tip_name = some tip →
        env.getChain root tip = none → init env r = (false, r)) := by
  refine ⟨?_, ?_, ?_, ?_, ?_, ?_, ?_, ?_⟩
  · intro h
    rcases init_frame_or_success env r with h2 | h2
    · exact h2
    · rw [h2] at h
      exact Bool.noConfusion h
  · intro hc
    unfold init
    repeat' split
    all_goals simp_all
  · intro hc
    unfold init
    repeat' split
    all_goals simp_all
  · intro hc
    unfold init
    repeat' split
    all_goals simp_all
  · intro rd hsp hc
    unfold init
    repeat' split
    all_goals simp_all
  · intro rd xml hsp hpv hc
    unfold init
    repeat' split
    all_goals simp_all
  · intro rd xml hsp hpv hc
    unfold init
    repeat' split
    all_goals simp_all
  · intro root tip hrn htn hc
    unfold init
    repeat' split
    all_goals simp_all

/-- Witness for C5: with the robot-description search failing, `init`
returns failure and the empty resource record unchanged. -/
theorem init_fails_closed_witness : init envMissing rEmpty = (false, rEmpty) :=
  (init_fails_closed envMissing rEmpty).2.1 rfl

/-- C6: after a successful `init` on a chain whose first segment is the
fixed virtual root and whose remaining segments are the movable joints,
the joint-handle list and every per-joint structure size equal the
chain's movable-joint count N. -/
theorem init_success_sizes (env : InitEnv) (r : CtrlResources)
    (rd xml root tip : String) (seg0 : Segment) (rest : List Segment)
    (hhandles : r.joint_handles = [])
    (h1 : env.searchParam = some rd)
    (h2 : env.root_name = some root)
    (h3 : env.tip_name = some tip)
    (h4 : env.param rd = some xml)
    (h5 : xml.length ≠ 0)
    (h6 : env.parseUrdf xml = true)
    (h7 : env.treeFromUrdf xml = true)
    (h8 : env.getChain root tip = some (seg0 :: rest))
    (h9 : seg0.movable = false)
    (h10 : ∀ sg ∈ rest, sg.movable = true) :
    (init env r).1 = true
    ∧ (init env r).2.joint_handles.length = Chain.nrOfJoints (seg0 :: rest)
    ∧ (init env r).2.msr_size = Chain.nrOfJoints (seg0 :: rest)
    ∧ (init env r).2.des_size = Chain.nrOfJoints (seg0 :: rest)
    ∧ (init env r).2.tau_size = Chain.nrOfJoints (seg0 :: rest)
    ∧ (init env r).2.jac_size = Chain.nrOfJoints (seg0 :: rest)
    ∧ (init env r).2.pids_size = Chain.nrOfJoints (seg0 :: rest) := by
  have hN : Chain.nrOfJoints (seg0 :: rest) = rest.length := by
    unfold Chain.nrOfJoints
    rw [List.filter_cons_of_neg (by simp [h9]), List.filter_eq_self.mpr h10]
  unfold init
  simp only [h1, h2, h3, h4, h8]
  rw [if_neg h5, if_neg (by simp [h6]), if_neg (by simp [h7])]
  refine ⟨rfl, ?_, rfl, rfl, rfl, rfl, rfl⟩
  simp [hhandles, hN]

/-- Witness for C6: the successful environment with the two-segment chain
(one fixed root, one movable joint) yields success and exactly one joint
handle, matching the chain's single movable joint. -/
theorem init_success_sizes_witness :
    (init envOk rEmpty).1 = true
    ∧ (init envOk rEmpty).2.joint_handles.length = Chain.nrOfJoints chainEx := by
  have h := init_success_sizes envOk rEmpty "robot_description" "<robot/>"
      "root" "tip" ⟨"base_joint", false⟩ [⟨"joint_a1", true⟩] rfl rfl rfl rfl rfl
      (by decide) rfl rfl rfl rfl (by decide)
  exact ⟨h.1, h.2.1⟩

end KukaLWR
